import Mathlib

/-!
Shallow embedding of `validation.js` from the alexa-smarthome-validation package
(the Node.js response validator for the Alexa Smart Home API), together with proofs
about the validation rules. Source line numbers cited below refer to that file.

JavaScript values are modelled by the inductive type `JsVal`. JS numbers are modelled
as integers: the validator never performs arithmetic on them, it only tests
`typeof x == "number"`, `x <= 0` and length comparisons, and every numeric literal
appearing in the validated structures of interest is integral. A thrown `Error` (or a
`TypeError` / `ReferenceError` raised by the JS runtime itself) is modelled as
`Except.error msg`; normal completion is `Except.ok ()`.
-/

set_option maxRecDepth 100000

namespace AlexaValidation

/-- A JavaScript value: `null`, `undefined`, booleans, numbers (modelled as integers),
strings, arrays and plain objects (ordered key/value lists; the object literals handled
by the validator have no duplicate keys). -/
inductive JsVal where
  | null
  | undefined
  | bool (b : Bool)
  | num (n : Int)
  | str (s : String)
  | arr (elems : List JsVal)
  | obj (fields : List (String × JsVal))

/-- Key lookup in an object's field list (first match; the literals in play have
no duplicate keys). Missing keys read as `undefined`, as in JS. -/
def getPropFields : List (String × JsVal) → String → JsVal
  | [], _ => .undefined
  | (k2, v) :: fs, k => if k2 == k then v else getPropFields fs k

/-- JS property read `v[k]`. Strings and arrays expose a numeric `length`; reads of
other keys on primitives yield `undefined`. A property read on `null`/`undefined`
throws a TypeError in JS; the validator only dereferences values that earlier checks
have established to be non-null on every path exercised below, so this case is mapped
to `undefined` here. Numeric indexing of arrays is not modelled because the validator
never reads an array element by key. -/
def getProp : JsVal → String → JsVal
  | .obj fs, k => getPropFields fs k
  | .str s, k => if k == "length" then .num (s.length : Int) else .undefined
  | .arr xs, k => if k == "length" then .num (xs.length : Int) else .undefined
  | _, _ => .undefined

/-- Is the value `null` or `undefined` (the values loosely equal to `null`, and the
values on which a property access throws)? -/
def isNullish : JsVal → Bool
  | .null => true
  | .undefined => true
  | _ => false

/-- JS truthiness, used for the source's `if (!payload)` test. -/
def jsTruthy : JsVal → Bool
  | .null => false
  | .undefined => false
  | .bool b => b
  | .num n => !(n == 0)
  | .str s => !(s == "")
  | .arr _ => true
  | .obj _ => true

/-- Fallback of the source's `isEmpty` once both `length` tests failed: values whose
`typeof` is not "object" count as empty, objects are empty iff they have no own
properties. -/
def isEmptyProps : JsVal → Bool
  | .obj fs => fs.isEmpty
  | .arr xs => xs.isEmpty
  | _ => true

/-- The source's `isEmpty`: `null`/`undefined` are empty; then `obj.length > 0` means
non-empty and `obj.length === 0` means empty; otherwise fall through to the
`typeof`/own-properties logic. Non-numeric `length` values (possible only for a plain
object carrying a bespoke `length` key, which never occurs in the structures validated
here) take the fall-through branch. -/
def isEmpty (obj : JsVal) : Bool :=
  match obj with
  | .null => true
  | .undefined => true
  | v =>
    match getProp v "length" with
    | .num n => if 0 < n then false else if n == 0 then true else isEmptyProps v
    | _ => isEmptyProps v

/-- The JS `in` operator `key in v`. For objects it tests key membership, for arrays it
tests index keys and `"length"`. Applied to a primitive it throws a TypeError, which is
signalled by `none`. -/
def jsIn (key : String) (v : JsVal) : Option Bool :=
  match v with
  | .obj fs => some (fs.any fun p => p.1 == key)
  | .arr xs =>
      some (key == "length" ||
        (match key.toNat? with
         | some i => i < xs.length
         | none => false))
  | _ => none

/-- Message for a TypeError raised by `key in v` on a primitive value. -/
def inOpTypeError (key : String) : String :=
  "TypeError: cannot use in operator to search for " ++ key

/-- The source's `isInArray(array, object)` specialised to the constant string arrays it
is always called with: an empty array or an empty candidate yields `false`, otherwise
`indexOf` (strict equality) can only find a string candidate. -/
def isInStrArray (array : List String) (v : JsVal) : Bool :=
  if array.isEmpty then false
  else if isEmpty v then false
  else
    match v with
    | .str s => array.contains s
    | _ => false

/-- Strict equality `v === s` against a string literal. -/
def jsStrictEqStr (v : JsVal) (s : String) : Bool :=
  match v with
  | .str t => t == s
  | _ => false

/-- The test `v.length > n` of the source: a numeric `length` property is compared,
and a missing (`undefined`) length makes the comparison false, as `undefined > n` is
false in JS. -/
def jsLengthGtNum (v : JsVal) (n : Int) : Bool :=
  match getProp v "length" with
  | .num m => n < m
  | _ => false

/-- The test `v instanceof Boolean || typeof v === 'boolean'`. -/
def isJsBool : JsVal → Bool
  | .bool _ => true
  | _ => false

/-- The test `typeof v == "number"`. -/
def isJsNumber : JsVal → Bool
  | .num _ => true
  | _ => false

/-- The test `v <= 0` of the source: true for a non-positive number; comparisons with
`undefined` and other non-numeric operands yield false (NaN comparison; numeric string
coercion does not occur in the validated structures). -/
def jsLeZero : JsVal → Bool
  | .num n => n ≤ 0
  | _ => false

/-- Does a character list start with the given pattern? -/
def startsWithChars : List Char → List Char → Bool
  | [], _ => true
  | _ :: _, [] => false
  | p :: ps, c :: cs => p == c && startsWithChars ps cs

/-- Replace the first occurrence of a non-empty pattern in a character list. -/
def replaceFirstAux (pat rep : List Char) : List Char → List Char
  | [] => []
  | c :: cs =>
      if startsWithChars pat (c :: cs) then rep ++ (c :: cs).drop pat.length
      else c :: replaceFirstAux pat rep cs

/-- JS `String.prototype.replace` with a string pattern replaces only the FIRST
occurrence (unlike Lean's `String.replace`, which replaces all of them). The validator
applies it with the non-empty pattern `"Request"`, so the empty-pattern corner of the
JS semantics is irrelevant. -/
def jsReplaceFirst (s pat rep : String) : String :=
  ⟨replaceFirstAux pat.data rep.data s.data⟩

/-- Characters admitted by the anchored regex `^[a-zA-Z0-9\-]*$` used for
`header.messageId`. -/
def messageIdCharOk (c : Char) : Bool :=
  (c.isAlpha || c.isDigit) || c == '-'

/-- Characters admitted by the anchored regex for `applianceId`:
`^[a-zA-Z0-9_\-=;:?@&]*$`. -/
def applianceIdCharOk (c : Char) : Bool :=
  (c.isAlpha || c.isDigit) ||
    (c == '_' || c == '-' || c == '=' || c == ';' || c == ':' || c == '?' || c == '@' || c == '&')

/-- Characters admitted by the anchored regex `^[a-zA-Z0-9 ]*$` (alphanumerics and
spaces), used for `friendlyName` and `dependentServiceName`. -/
def alnumSpaceCharOk (c : Char) : Bool :=
  (c.isAlpha || c.isDigit) || c == ' '

/-- Characters admitted by the anchored regex `^[a-zA-Z0-9]*$` used for the firmware
version fields. -/
def alnumCharOk (c : Char) : Bool :=
  c.isAlpha || c.isDigit

/-- `v.match(anchored-regex)` / `v.search(anchored-regex)` outcome: for a string the
anchored regexes above match iff every character is admitted; on a non-string the
method does not exist and a TypeError is thrown (`none`). -/
def jsMatchesAll (v : JsVal) (ok : Char → Bool) : Option Bool :=
  match v with
  | .str s => some (s.data.all ok)
  | _ => none

/-- Message for the TypeError raised when calling a string method on a non-string. -/
def strMethodTypeError (method : String) : String :=
  "TypeError: " ++ method ++ " is not a function"

/-- Escape of a character inside a JSON string literal (quotes and backslashes; the
strings appearing in the claims need nothing more). -/
def jsonEscapeChar (c : Char) : String :=
  if c == '"' then "\\\"" else if c == '\\' then "\\\\" else String.singleton c

/-- Escape a string for inclusion in JSON output. -/
def jsonEscape (s : String) : String :=
  String.join (s.data.map jsonEscapeChar)

mutual

/-- `JSON.stringify`, used by the validator only to render the offending data structure
at the end of an error message. `JSON.stringify(undefined)` is the `undefined` value,
which the enclosing string concatenation renders as "undefined". -/
def jsonStringify : JsVal → String
  | .null => "null"
  | .undefined => "undefined"
  | .bool b => cond b "true" "false"
  | .num n => toString n
  | .str s => "\"" ++ jsonEscape s ++ "\""
  | .arr xs => "[" ++ jsonStringifyElems xs ++ "]"
  | .obj fs => "\x7b" ++ jsonStringifyFields fs ++ "\x7d"

/-- Comma-separated rendering of array elements. -/
def jsonStringifyElems : List JsVal → String
  | [] => ""
  | [x] => jsonStringify x
  | x :: y :: xs => jsonStringify x ++ "," ++ jsonStringifyElems (y :: xs)

/-- Comma-separated rendering of object fields. -/
def jsonStringifyFields : List (String × JsVal) → String
  | [] => ""
  | [(k, v)] => "\"" ++ jsonEscape k ++ "\":" ++ jsonStringify v
  | (k, v) :: f :: fs =>
      "\"" ++ jsonEscape k ++ "\":" ++ jsonStringify v ++ "," ++ jsonStringifyFields (f :: fs)

end

mutual

/-- JS string coercion (`'' + v`), used when a value is concatenated into an error
message title. On every reachable path the coerced value is a header name that earlier
checks constrained to a string, but the coercion of the other cases is modelled anyway:
`String(null) = "null"`, arrays join their elements with commas, plain objects render
as "[object Object]". -/
def jsToString : JsVal → String
  | .null => "null"
  | .undefined => "undefined"
  | .bool b => cond b "true" "false"
  | .num n => toString n
  | .str s => s
  | .arr xs => jsToStringElems xs
  | .obj _ => "[object Object]"

/-- Comma-joined element coercion backing `Array.prototype.toString`. -/
def jsToStringElems : List JsVal → String
  | [] => ""
  | [x] => jsToString x
  | x :: y :: xs => jsToString x ++ "," ++ jsToStringElems (y :: xs)

end

/-- The source's `generateErrorMessage(title, message, data)`:
`title + ' :: ' + message + ': ' + JSON.stringify(data)`. -/
def generateErrorMessage (title message : String) (data : JsVal) : String :=
  title ++ " :: " ++ message ++ ": " ++ jsonStringify data

/-- Sequencing of two fail-fast checks: a thrown error propagates, otherwise the next
check runs. -/
def andThen : Except String Unit → Except String Unit → Except String Unit
  | Except.error e, _ => Except.error e
  | Except.ok _, rest => rest

/-- `forEach` over a list of string keys with a throwing body. -/
def forEachE (xs : List String) (f : String → Except String Unit) : Except String Unit :=
  match xs with
  | [] => Except.ok ()
  | k :: ks => andThen (f k) (forEachE ks f)

/-- `forEach` over a list of values with a throwing body. -/
def forEachV (xs : List JsVal) (f : JsVal → Except String Unit) : Except String Unit :=
  match xs with
  | [] => Except.ok ()
  | v :: vs => andThen (f v) (forEachV vs f)

@[simp] lemma andThen_ok (rest : Except String Unit) : andThen (Except.ok ()) rest = rest := rfl

@[simp] lemma andThen_error (e : String) (rest : Except String Unit) :
    andThen (Except.error e) rest = Except.error e := rfl

/-! ### The validator's rule tables (constants of the source, lines 32-155) -/

def VALID_DISCOVERY_REQUEST_NAMES : List String :=
  ["DiscoverAppliancesRequest"]

def VALID_CONTROL_REQUEST_NAMES : List String :=
  ["TurnOnRequest",
   "TurnOffRequest",
   "SetTargetTemperatureRequest",
   "IncrementTargetTemperatureRequest",
   "DecrementTargetTemperatureRequest",
   "SetPercentageRequest",
   "IncrementPercentageRequest",
   "DecrementPercentageRequest"]

def VALID_SYSTEM_REQUEST_NAMES : List String :=
  ["HealthCheckRequest"]

def VALID_REQUEST_NAMES : List String :=
  VALID_DISCOVERY_REQUEST_NAMES ++ VALID_CONTROL_REQUEST_NAMES ++ VALID_SYSTEM_REQUEST_NAMES

def VALID_DISCOVERY_RESPONSE_NAMES : List String :=
  ["DiscoverAppliancesResponse"]

def VALID_CONTROL_RESPONSE_NAMES : List String :=
  ["TurnOnConfirmation",
   "TurnOffConfirmation",
   "SetTargetTemperatureConfirmation",
   "IncrementTargetTemperatureConfirmation",
   "DecrementTargetTemperatureConfirmation",
   "SetPercentageConfirmation",
   "IncrementPercentageConfirmation",
   "DecrementPercentageConfirmation"]

def VALID_CONTROL_ERROR_RESPONSE_NAMES : List String :=
  ["ValueOutOfRangeError",
   "TargetOfflineError",
   "BridgeOfflineError",
   "NoSuchTargetError",
   "DriverInternalError",
   "DependentServiceUnavailableError",
   "TargetConnectivityUnstableError",
   "TargetBridgeConnectivityUnstableError",
   "TargetFirmwareOutdatedError",
   "TargetBridgeFirmwareOutdatedError",
   "TargetHardwareMalfunctionError",
   "TargetBridgetHardwareMalfunctionError",
   "UnwillingToSetValueError",
   "RateLimitExceededError",
   "NotSupportedInCurrentModeError",
   "ExpiredAccessTokenError",
   "InvalidAccessTokenError",
   "UnsupportedTargetError",
   "UnsupportedOperationError",
   "UnsupportedTargetSettingError",
   "UnexpectedInformationReceivedError"]

def VALID_SYSTEM_RESPONSE_NAMES : List String :=
  ["HealthCheckResponse"]

def VALID_NON_EMPTY_PAYLOAD_RESPONSE_NAMES : List String :=
  ["SetTargetTemperatureConfirmation",
   "IncrementTargetTemperatureConfirmation",
   "DecrementTargetTemperatureConfirmation",
   "ValueOutOfRangeError",
   "DependentServiceUnavailableError",
   "TargetFirmwareOutdatedError",
   "TargetBridgeFirmwareOutdatedError",
   "UnwillingToSetValueError",
   "RateLimitExceededError",
   "NotSupportedInCurrentModeError",
   "UnexpectedInformationReceivedError"]

def VALID_ACTIONS : List String :=
  ["setTargetTemperature",
   "incrementTargetTemperature",
   "decrementTargetTemperature",
   "setPercentage",
   "incrementPercentage",
   "decrementPercentage",
   "turnOff",
   "turnOn"]

def VALID_TEMPERATURE_MODES : List String :=
  ["HEAT", "COOL", "AUTO"]

def VALID_CURRENT_DEVICE_MODES : List String :=
  ["HEAT", "COOL", "AUTO", "AWAY", "OTHER"]

def VALID_ERRORINFO_CODES : List String :=
  ["ThermostatIsOff"]

def VALID_TIME_UNITS : List String :=
  ["MINUTE", "HOUR", "DAY"]

def REQUIRED_RESPONSE_KEYS : List String :=
  ["header", "payload"]

def REQUIRED_HEADER_KEYS : List String :=
  ["namespace", "name", "payloadVersion", "messageId"]

def REQUIRED_DISCOVERED_APPLIANCE_KEYS : List String :=
  ["applianceId",
   "manufacturerName",
   "modelName",
   "version",
   "friendlyName",
   "friendlyDescription",
   "isReachable",
   "actions",
   "additionalApplianceDetails"]

def MAX_DISCOVERED_APPLIANCES : Nat := 300

/-! ### validateResponseHeader (source lines 509-573) -/

/-- The `REQUIRED_HEADER_KEYS.forEach` loop of `validateResponseHeader`
(source lines 530-534). -/
def requiredHeaderKeysCheck (header : JsVal) : Except String Unit :=
  forEachE REQUIRED_HEADER_KEYS fun required_header_key =>
    match jsIn required_header_key header with
    | none => Except.error (inOpTypeError required_header_key)
    | some false =>
        Except.error
          (generateErrorMessage "Response" ("header." ++ required_header_key ++ " is required") header)
    | some true => Except.ok ()

/-- The discovery branch of the header namespace/name check
(source lines 537-544). -/
def discoveryHeaderNameCheck (request_name header : JsVal) : Except String Unit :=
  if isInStrArray VALID_DISCOVERY_REQUEST_NAMES request_name then
    if !(jsStrictEqStr (getProp header "namespace") "Alexa.ConnectedHome.Discovery") then
      Except.error
        (generateErrorMessage "Discovery Response"
          "header.namespace must be Alexa.ConnectedHome.Discovery" header)
    else if !(isInStrArray VALID_DISCOVERY_RESPONSE_NAMES (getProp header "name")) then
      Except.error (generateErrorMessage "Discovery Response" "header.name is invalid" header)
    else Except.ok ()
  else Except.ok ()

/-- The control branch of the header namespace/name check (source lines 545-558):
the response name must be a control confirmation or control error name, and a
non-error name must equal the request name with its first occurrence of `Request`
replaced by `Confirmation`. -/
def controlHeaderNameCheck (request_name header : JsVal) : Except String Unit :=
  if isInStrArray VALID_CONTROL_REQUEST_NAMES request_name then
    if !(jsStrictEqStr (getProp header "namespace") "Alexa.ConnectedHome.Control") then
      Except.error
        (generateErrorMessage "Control Response"
          "header.namespace must be Alexa.ConnectedHome.Control" header)
    else if !(isInStrArray (VALID_CONTROL_RESPONSE_NAMES ++ VALID_CONTROL_ERROR_RESPONSE_NAMES)
        (getProp header "name")) then
      Except.error (generateErrorMessage "Control Response" "header.name is invalid" header)
    else if !(isInStrArray VALID_CONTROL_ERROR_RESPONSE_NAMES (getProp header "name")) then
      let correct_response_name := jsReplaceFirst (jsToString request_name) "Request" "Confirmation"
      if !(jsStrictEqStr (getProp header "name") correct_response_name) then
        Except.error
          (generateErrorMessage "Control Response"
            ("header.name must be an error response name or " ++ correct_response_name ++
              " for " ++ jsToString request_name) header)
      else Except.ok ()
    else Except.ok ()
  else Except.ok ()

/-- The common header constraints (source lines 560-573): `payloadVersion === "2"`;
`messageId.search("^[a-zA-Z0-9\-]*$") == -1` (for the anchored regex this is exactly
"some character is outside the class"; calling `.search` on a non-string throws a
TypeError); `messageId` non-empty; `messageId.length > 127` rejected. -/
def commonHeaderCheck (header : JsVal) : Except String Unit :=
  if !(jsStrictEqStr (getProp header "payloadVersion") "2") then
    Except.error
      (generateErrorMessage (jsToString (getProp header "name"))
        "header.payloadVersion must be \"2\"" header)
  else
    match getProp header "messageId" with
    | .str mid =>
        if !(mid.data.all messageIdCharOk) then
          Except.error
            (generateErrorMessage (jsToString (getProp header "name"))
              "header.messageId must be specified in alphanumeric characters or - " header)
        else if isEmpty (.str mid) then
          Except.error
            (generateErrorMessage (jsToString (getProp header "name"))
              "header.messageId must not be empty" header)
        else if 127 < mid.length then
          Except.error
            (generateErrorMessage (jsToString (getProp header "name"))
              "header.messageId must not exceed 128 characters" header)
        else Except.ok ()
    | _ => Except.error (strMethodTypeError "search")

/-- `validateResponseHeader(request, response)` (source lines 509-573). -/
def validateResponseHeader (request response : JsVal) : Except String Unit :=
  let request_name := getProp (getProp request "header") "name"
  let header := getProp response "header"
  if !(isInStrArray VALID_REQUEST_NAMES request_name) then
    Except.error (generateErrorMessage "Request" "request name is invalid" request)
  else if isEmpty header then
    Except.error (generateErrorMessage "Response" "header is missing" response)
  else
    andThen (requiredHeaderKeysCheck header)
      (andThen (discoveryHeaderNameCheck request_name header)
        (andThen (controlHeaderNameCheck request_name header)
          (commonHeaderCheck header)))

/-! ### validateSystemResponse (source lines 220-253) -/

/-- One iteration of the `['description','isHealthy'].forEach` loop of
`validateSystemResponse` (source lines 242-252). The source has three genuine JS
slips that the embedding reproduces:
* `if (!required_key in payload)` parses as `(!required_key) in payload`, i.e.
  `false in payload`: it tests whether the payload owns a property named `"false"`,
  and when it does, building the error message evaluates `format(required_key)` where
  `format` is nowhere defined, raising a ReferenceError;
* `isEmpty(payload.description)` is then tested (this check does fire as intended);
* `if (!payload.isHealthy instanceof boolean)` evaluates the identifier `boolean`,
  which is not defined (JS's constructor is `Boolean`), so reaching this line always
  raises a ReferenceError. -/
def systemPayloadKeyCheck (response_name payload : JsVal) (_required_key : String) :
    Except String Unit :=
  match jsIn "false" payload with
  | none => Except.error (inOpTypeError "false")
  | some true => Except.error "ReferenceError: format is not defined"
  | some false =>
      if isEmpty (getProp payload "description") then
        Except.error
          (generateErrorMessage (jsToString response_name)
            "payload.description must not be empty" payload)
      else Except.error "ReferenceError: boolean is not defined"

/-- `validateSystemResponse(request, response)` (source lines 220-253). The
`try { payload = response.payload }` never throws on the paths reachable through
`validateResponse` (the response is a structured value there), so only the
`if (!payload)` falsiness test guards the payload. -/
def validateSystemResponse (request response : JsVal) : Except String Unit :=
  andThen (validateResponseHeader request response)
    (let response_name := getProp (getProp response "header") "name"
     let payload := getProp response "payload"
     if !(jsTruthy payload) then
       Except.error
         (generateErrorMessage (jsToString response_name) "payload is missing" payload)
     else
       forEachE ["description", "isHealthy"] (systemPayloadKeyCheck response_name payload))

/-! ### validateDiscoveryResponse (source lines 254-352) -/

/-- `Buffer.byteLength(v, 'utf8')` as on the Node runtimes of the package's era:
a non-string argument is coerced to a string first. -/
def byteLengthUtf8 (v : JsVal) : Nat :=
  (jsToString v).utf8ByteSize

/-- The per-appliance body of the `payload.discoveredAppliances.forEach` loop
(source lines 283-351). The final branch reproduces the source slip at line 348:
when `additionalApplianceDetails` exceeds 5000 bytes, the error-message construction
references the undeclared identifier `discoveredAppliance`, raising a ReferenceError
instead of the intended Error. -/
def validateAppliance (response_name appliance : JsVal) : Except String Unit :=
  andThen
    (forEachE REQUIRED_DISCOVERED_APPLIANCE_KEYS fun key =>
      match jsIn key appliance with
      | none => Except.error (inOpTypeError key)
      | some false =>
          Except.error (generateErrorMessage (jsToString response_name) (key ++ " is missing") appliance)
      | some true => Except.ok ())
    (let rn := jsToString response_name
     if isEmpty (getProp appliance "applianceId") then
       Except.error (generateErrorMessage rn "applianceId must not be empty" appliance)
     else if jsLengthGtNum (getProp appliance "applianceId") 256 then
       Except.error (generateErrorMessage rn "applianceId cannot be exceed 256 characters" appliance)
     else
       match jsMatchesAll (getProp appliance "applianceId") applianceIdCharOk with
       | none => Except.error (strMethodTypeError "match")
       | some false =>
           Except.error
             (generateErrorMessage rn
               ("applianceId must be alphanumeric " ++ "or the following special characters: _-=;:?@&")
               appliance)
       | some true =>
       if isEmpty (getProp appliance "manufacturerName") then
         Except.error (generateErrorMessage rn "manufacturerName must not be empty" appliance)
       else if jsLengthGtNum (getProp appliance "manufacturerName") 128 then
         Except.error (generateErrorMessage rn "manufacturerName cannot exceed 128 characters" appliance)
       else if isEmpty (getProp appliance "modelName") then
         Except.error (generateErrorMessage rn "modelName cannot be empty" appliance)
       else if jsLengthGtNum (getProp appliance "modelName") 128 then
         Except.error (generateErrorMessage rn "modelName cannot exceed 128 characters" appliance)
       else if isEmpty (getProp appliance "version") then
         Except.error (generateErrorMessage rn "version cannot be empty" appliance)
       else if jsLengthGtNum (getProp appliance "version") 128 then
         Except.error (generateErrorMessage rn "version cannot exceed 128 characters" appliance)
       else if isEmpty (getProp appliance "friendlyName") then
         Except.error (generateErrorMessage rn "friendlyName cannot be empty" appliance)
       else if jsLengthGtNum (getProp appliance "friendlyName") 128 then
         Except.error (generateErrorMessage rn "friendlyName cannot exceed 128 characters" appliance)
       else
         match jsMatchesAll (getProp appliance "friendlyName") alnumSpaceCharOk with
         | none => Except.error (strMethodTypeError "match")
         | some false =>
             Except.error
               (generateErrorMessage rn
                 "friendlyName cannot contain punctuation or special characters" appliance)
         | some true =>
         if isEmpty (getProp appliance "friendlyDescription") then
           Except.error (generateErrorMessage rn "friendlyDescription cannot be empty" appliance)
         else if jsLengthGtNum (getProp appliance "friendlyDescription") 128 then
           Except.error
             (generateErrorMessage rn "friendlyDescription cannot exceed 128 characters" appliance)
         else if !(isJsBool (getProp appliance "isReachable")) then
           Except.error (generateErrorMessage rn "isReachable must be a boolean" appliance)
         else
           match getProp appliance "actions" with
           | .arr actionList =>
               if isEmpty (.arr actionList) then
                 Except.error (generateErrorMessage rn "actions cannot be empty" appliance)
               else
                 andThen
                   (forEachV actionList fun action =>
                     if !(isInStrArray VALID_ACTIONS action) then
                       Except.error
                         (generateErrorMessage rn
                           (jsonStringify action ++ " is not an allowed action") appliance)
                     else Except.ok ())
                   (let aad := getProp appliance "additionalApplianceDetails"
                    if !(isNullish aad) then
                      if 5000 < byteLengthUtf8 aad then
                        Except.error "ReferenceError: discoveredAppliance is not defined"
                      else Except.ok ()
                    else Except.ok ())
           | _ => Except.error (generateErrorMessage rn "actions must be a list" appliance))

/-- The payload part of `validateDiscoveryResponse` (source lines 264-351). -/
def discoveryPayloadCheck (response : JsVal) : Except String Unit :=
  let payload := getProp response "payload"
  let response_name := getProp (getProp response "header") "name"
  if isEmpty payload then
    Except.error
      (generateErrorMessage (jsToString response_name) "payload is missing" payload)
  else
    match jsIn "discoveredAppliances" payload with
    | none => Except.error (inOpTypeError "discoveredAppliances")
    | some false =>
        Except.error
          (generateErrorMessage (jsToString response_name)
            "payload.discoveredAppliances is missing" payload)
    | some true =>
        match getProp payload "discoveredAppliances" with
        | .arr appliances =>
            if MAX_DISCOVERED_APPLIANCES < appliances.length then
              Except.error
                (generateErrorMessage (jsToString response_name)
                  "payload.discoveredAppliances must not contain more than 300 appliances" payload)
            else forEachV appliances (validateAppliance response_name)
        | _ =>
            Except.error
              (generateErrorMessage (jsToString response_name)
                "payload.discoveredAppliances must be a list, can be empty" payload)

/-- `validateDiscoveryResponse(request, response)` (source lines 254-352). -/
def validateDiscoveryResponse (request response : JsVal) : Except String Unit :=
  andThen (validateResponseHeader request response) (discoveryPayloadCheck response)

/-! ### validateControlResponse (source lines 354-507) -/

/-- One iteration of the thermostat loop
`['targetTemperature','temperatureMode','previousState'].forEach` (source lines
388-423). Each iteration first tests presence of its own key, then re-runs the same
fixed checks on `targetTemperature` and `temperatureMode`. The membership test on
line 401 reads the identifier `TEMPERATURE_MODES`, which is not defined anywhere in
the source (the constant is named `VALID_TEMPERATURE_MODES`), so every execution that
reaches it raises a ReferenceError; the `previousState` checks of lines 405-422 are
therefore unreachable and are not modelled. -/
def thermostatKeyCheck (response_name payload : JsVal) (key : String) : Except String Unit :=
  match jsIn key payload with
  | none => Except.error (inOpTypeError key)
  | some false =>
      Except.error
        (generateErrorMessage (jsToString response_name) ("payload." ++ key ++ " is missing") payload)
  | some true =>
      match jsIn "value" (getProp payload "targetTemperature") with
      | none => Except.error (inOpTypeError "value")
      | some false =>
          Except.error
            (generateErrorMessage (jsToString response_name)
              "payload.targetTemperature.value is missing" payload)
      | some true =>
          if !(isJsNumber (getProp (getProp payload "targetTemperature") "value")) then
            Except.error
              (generateErrorMessage (jsToString response_name)
                "payload.targetTemperature.value must be a number" payload)
          else
            match jsIn "value" (getProp payload "temperatureMode") with
            | none => Except.error (inOpTypeError "value")
            | some false =>
                Except.error
                  (generateErrorMessage (jsToString response_name)
                    "payload.temperatureMode.value is missing" payload)
            | some true => Except.error "ReferenceError: TEMPERATURE_MODES is not defined"

/-- The JS expression `response_name in ['TargetFirmwareOutdatedError',
'TargetBridgeFirmwareOutdatedError']` (source line 447). The `in` operator does not
test array membership: it tests whether the left operand, coerced to a property key,
is a key of the array object, i.e. one of the index keys `"0"`, `"1"` or `"length"`.
No valid response name is such a key, so the firmware block below it is dead code. -/
def inFirmwareArrayLiteral (v : JsVal) : Bool :=
  match v with
  | .str s => s == "0" || s == "1" || s == "length"
  | .num n => n == 0 || n == 1
  | _ => false

/-- One iteration of the `['minimumFirmwareVersion','currentFirmwareVersion'].forEach`
loop of the (unreachable) firmware block (source lines 448-459). -/
def firmwareKeyCheck (response_name payload : JsVal) (key : String) : Except String Unit :=
  match jsIn key payload with
  | none => Except.error (inOpTypeError key)
  | some false =>
      Except.error
        (generateErrorMessage (jsToString response_name) ("payload." ++ key ++ " is missing") payload)
  | some true =>
      if isEmpty (getProp payload key) then
        Except.error
          (generateErrorMessage (jsToString response_name)
            ("payload." ++ key ++ " must not be empty") payload)
      else
        match jsMatchesAll (getProp payload key) alnumCharOk with
        | none => Except.error (strMethodTypeError "match")
        | some false =>
            Except.error
              (generateErrorMessage (jsToString response_name)
                ("payload." ++ key ++ " must be specifed in alphanumeric characters and spaces")
                payload)
        | some true => Except.ok ()

/-- One iteration of the `['rateLimit','timeUnit'].forEach` loop of the
RateLimitExceededError block (source lines 477-487). Both iterations run the same two
value tests, and both test `payload.rateLimit`: the membership test of line 484
checks `payload.rateLimit` — not `payload.timeUnit` — against the time-unit
vocabulary (`isInArray` returns false both for values it deems empty, which includes
every number, and for values absent from the array). -/
def rateLimitKeyCheck (response_name payload : JsVal) (key : String) : Except String Unit :=
  match jsIn key payload with
  | none => Except.error (inOpTypeError key)
  | some false =>
      Except.error
        (generateErrorMessage (jsToString response_name) ("payload." ++ key ++ " is missing") payload)
  | some true =>
      if jsLeZero (getProp payload "rateLimit") then
        Except.error
          (generateErrorMessage (jsToString response_name)
            "payload.rateLimit must be a positive integer" payload)
      else if !(isInStrArray VALID_TIME_UNITS (getProp payload "rateLimit")) then
        Except.error
          (generateErrorMessage (jsToString response_name) "payload.timeUnit is invalid" payload)
      else Except.ok ()

/-- The per-error-name payload shape checks of `validateControlResponse`
(source lines 426-506), dispatched on the response name. -/
def controlErrorShapeCheck (response_name payload : JsVal) : Except String Unit :=
  andThen
    (if jsStrictEqStr response_name "ValueOutOfRangeError" then
      (forEachE ["minimumValue", "maximumValue"] fun key =>
        match jsIn key payload with
        | none => Except.error (inOpTypeError key)
        | some false =>
            Except.error
              (generateErrorMessage (jsToString response_name)
                ("payload." ++ key ++ " is missing") payload)
        | some true =>
            if !(isJsNumber (getProp payload key)) then
              Except.error
                (generateErrorMessage (jsToString response_name)
                  ("payload." ++ key ++ " must be a number") payload)
            else Except.ok ())
    else Except.ok ())
  (andThen
    (if jsStrictEqStr response_name "DependentServiceUnavailableError" then
      (match jsIn "dependentServiceName" payload with
      | none => Except.error (inOpTypeError "dependentServiceName")
      | some false =>
          Except.error
            (generateErrorMessage (jsToString response_name)
              "payload.dependentServiceName is missing" payload)
      | some true =>
          match jsMatchesAll (getProp payload "dependentServiceName") alnumSpaceCharOk with
          | none => Except.error (strMethodTypeError "match")
          | some false =>
              Except.error
                (generateErrorMessage (jsToString response_name)
                  "payload.dependentServiceName must be specifed in alphanumeric characters and spaces"
                  payload)
          | some true => Except.ok ())
    else Except.ok ())
  (andThen
    (if inFirmwareArrayLiteral response_name then
      forEachE ["minimumFirmwareVersion", "currentFirmwareVersion"]
        (firmwareKeyCheck response_name payload)
    else Except.ok ())
  (andThen
    (if jsStrictEqStr response_name "UnwillingToSetValueError" then
      (match jsIn "errorInfo" payload with
      | none => Except.error (inOpTypeError "errorInfo")
      | some false =>
          Except.error
            (generateErrorMessage (jsToString response_name) "payload.errorInfo is missing" payload)
      | some true =>
          andThen
            (forEachE ["code", "description"] fun key =>
              match jsIn key (getProp payload "errorInfo") with
              | none => Except.error (inOpTypeError key)
              | some false =>
                  Except.error
                    (generateErrorMessage (jsToString response_name)
                      ("payload.errorInfo." ++ key ++ " is missing") payload)
              | some true => Except.ok ())
            (if !(isInStrArray VALID_ERRORINFO_CODES (getProp (getProp payload "errorInfo") "code")) then
              Except.error
                (generateErrorMessage (jsToString response_name)
                  "payload.errorInfo.code is invalid" payload)
            else Except.ok ()))
    else Except.ok ())
  (andThen
    (if jsStrictEqStr response_name "RateLimitExceededError" then
      forEachE ["rateLimit", "timeUnit"] (rateLimitKeyCheck response_name payload)
    else Except.ok ())
  (andThen
    (if jsStrictEqStr response_name "NotSupportedInCurrentModeError" then
      (match jsIn "currentDeviceMode" payload with
      | none => Except.error (inOpTypeError "currentDeviceMode")
      | some false =>
          Except.error
            (generateErrorMessage (jsToString response_name)
              "payload.currentDeviceMode is missing" payload)
      | some true =>
          if !(isInStrArray VALID_CURRENT_DEVICE_MODES (getProp payload "currentDeviceMode")) then
            Except.error
              (generateErrorMessage (jsToString response_name)
                "payload.currentDeviceMode is invalid" payload)
          else Except.ok ())
    else Except.ok ())
    (if jsStrictEqStr response_name "UnexpectedInformationReceivedError" then
      (match jsIn "faultingParameter" payload with
      | none => Except.error (inOpTypeError "faultingParameter")
      | some false =>
          Except.error
            (generateErrorMessage (jsToString response_name)
              "payload.faultingParameter is missing" payload)
      | some true =>
          if isEmpty (getProp payload "faultingParameter") then
            Except.error
              (generateErrorMessage (jsToString response_name)
                "payload.faultingParameter must not be empty" payload)
          else Except.ok ())
    else Except.ok ()))))))

/-- `validateControlResponse(request, response)` (source lines 354-507): header
validation, the null-payload test (`payload == null` is loose equality, true for
`null` and `undefined`), the empty/non-empty payload rule keyed on
`VALID_NON_EMPTY_PAYLOAD_RESPONSE_NAMES`, the thermostat loop for the three
temperature request names, and the per-error-name shape checks. -/
def validateControlResponse (request response : JsVal) : Except String Unit :=
  andThen (validateResponseHeader request response)
    (let payload := getProp response "payload"
     let request_name := getProp (getProp request "header") "name"
     let response_name := getProp (getProp response "header") "name"
     if isNullish payload then
       Except.error
         (generateErrorMessage (jsToString response_name) "payload is missing" payload)
     else
       andThen
         (if isInStrArray VALID_NON_EMPTY_PAYLOAD_RESPONSE_NAMES response_name then
           if isEmpty payload then
             Except.error
               (generateErrorMessage (jsToString response_name) "payload cannot be empty" payload)
           else Except.ok ()
         else
           if !(isEmpty payload) then
             Except.error
               (generateErrorMessage (jsToString response_name) "payload must be empty" payload)
           else Except.ok ())
         (andThen
           (if isInStrArray
               ["SetTargetTemperatureRequest", "IncrementTargetTemperatureRequest",
                "DecrementTargetTemperatureRequest"] request_name then
             forEachE ["targetTemperature", "temperatureMode", "previousState"]
               (thermostatKeyCheck response_name payload)
           else Except.ok ())
           (controlErrorShapeCheck response_name payload)))

/-! ### validateResponse (source lines 171-218) -/

/-- The `REQUIRED_RESPONSE_KEYS.forEach` loop of `validateResponse`
(source lines 200-204). -/
def requiredResponseKeysCheck (response : JsVal) : Except String Unit :=
  forEachE REQUIRED_RESPONSE_KEYS fun required_key =>
    match jsIn required_key response with
    | none => Except.error (inOpTypeError required_key)
    | some false =>
        Except.error (generateErrorMessage "Response" (required_key ++ " is missing") response)
    | some true => Except.ok ()

/-- `validateResponse(request, response)` (source lines 171-218), the package's main
entry point. The source's `if (!request instanceof Array)` tests parse as
`(!request) instanceof Array`, which is false for every value (a boolean is never an
Array instance), so those two checks can never fire and are not modelled. The
`try/catch` around `request.header.namespace` throws exactly when `request.header` is
`null` or `undefined` (a property read on a nullish base). -/
def validateResponse (request response : JsVal) : Except String Unit :=
  if isEmpty request then
    Except.error (generateErrorMessage "Request" "request is missing" request)
  else if isNullish (getProp request "header") then
    Except.error (generateErrorMessage "Request" "request is invalid" request)
  else if isEmpty response then
    Except.error (generateErrorMessage "Response" "response is missing" response)
  else
    andThen (requiredResponseKeysCheck response)
      (let ns := getProp (getProp request "header") "namespace"
       if jsStrictEqStr ns "Alexa.ConnectedHome.Discovery" then
         validateDiscoveryResponse request response
       else if jsStrictEqStr ns "Alexa.ConnectedHome.Control" then
         validateControlResponse request response
       else if jsStrictEqStr ns "Alexa.ConnectedHome.System" then
         validateSystemResponse request response
       else Except.error (generateErrorMessage "Request" "request is invalid" request))

/-! ### Concrete request/response fixtures used by the theorems -/

/-- A well-formed envelope header. -/
def mkHeader (ns nm mid : String) : JsVal :=
  .obj [("namespace", .str ns), ("name", .str nm),
        ("payloadVersion", .str "2"), ("messageId", .str mid)]

/-- An envelope with the given header and payload. -/
def mkEnvelope (hdr payload : JsVal) : JsVal :=
  .obj [("header", hdr), ("payload", payload)]

/-- A well-formed request for the given namespace and request name. -/
def mkRequest (ns nm : String) : JsVal :=
  mkEnvelope (mkHeader ns nm "req-1") (.obj [])

/-- A control-namespace request with the given request name. -/
def sampleControlRequest (request_name : String) : JsVal :=
  mkRequest "Alexa.ConnectedHome.Control" request_name

/-- A control-namespace response header with the given response name and a valid
`messageId`. -/
def sampleControlResponse (response_name : String) : JsVal :=
  mkEnvelope (mkHeader "Alexa.ConnectedHome.Control" response_name "abc-1") (.obj [])

/-! ## Claim C2

A `ValueOutOfRangeError` response to a `SetTargetTemperatureRequest` with payload
`\x7bminimumValue: 5, maximumValue: 30\x7d` is claimed to pass. In the source the
thermostat payload checks of lines 386-424 are keyed on the request name alone and run
for error responses too, so this response is rejected for lacking a
`targetTemperature` key. -/

/-- The payload of the C2 scenario: exactly a numeric `minimumValue` and a numeric
`maximumValue`, the documented shape of `ValueOutOfRangeError`. -/
def c2_payload : JsVal :=
  .obj [("minimumValue", .num 5), ("maximumValue", .num 30)]

/-- The C2 response: `ValueOutOfRangeError` with a valid control header. -/
def c2_response : JsVal :=
  mkEnvelope (mkHeader "Alexa.ConnectedHome.Control" "ValueOutOfRangeError" "abc-1") c2_payload

/-- C2: contrary to the claim, `validateResponse` REJECTS a well-formed
`ValueOutOfRangeError` response to a `SetTargetTemperatureRequest`: the thermostat
block runs whenever the request is a temperature request, even for an error-shaped
response, and throws because the payload has no `targetTemperature` key. -/
theorem c2_value_out_of_range_error_is_rejected :
    validateResponse (sampleControlRequest "SetTargetTemperatureRequest") c2_response =
      Except.error
        (generateErrorMessage "ValueOutOfRangeError" "payload.targetTemperature is missing"
          c2_payload) := rfl

/-! ## Claim C3

A fully well-formed temperature confirmation is claimed to pass. The membership test
at source line 401 references the undeclared identifier `TEMPERATURE_MODES` (the
constant is `VALID_TEMPERATURE_MODES`), so every temperature confirmation — valid or
not — fails with a ReferenceError. -/

/-- A fully well-formed temperature confirmation payload: numeric
`targetTemperature.value`, `temperatureMode.value` drawn from
`\x7bHEAT, COOL, AUTO\x7d`, and a structurally identical `previousState`. -/
def c3_payload : JsVal :=
  .obj [("targetTemperature", .obj [("value", .num 21)]),
        ("temperatureMode", .obj [("value", .str "HEAT")]),
        ("previousState",
          .obj [("targetTemperature", .obj [("value", .num 20)]),
                ("temperatureMode", .obj [("value", .str "AUTO")])])]

/-- The C3 response: `SetTargetTemperatureConfirmation` with a valid header and the
fully well-formed payload above. -/
def c3_response : JsVal :=
  mkEnvelope (mkHeader "Alexa.ConnectedHome.Control" "SetTargetTemperatureConfirmation" "abc-1")
    c3_payload

/-- C3: contrary to the claim, a temperature confirmation whose `temperatureMode.value`
IS in `\x7bHEAT, COOL, AUTO\x7d`, with a numeric `targetTemperature.value` and a
mirroring `previousState`, does not pass validation: the mode-vocabulary membership
test reads the undefined identifier `TEMPERATURE_MODES` and raises a ReferenceError. -/
theorem c3_valid_temperature_confirmation_is_rejected :
    validateResponse (sampleControlRequest "SetTargetTemperatureRequest") c3_response =
      Except.error "ReferenceError: TEMPERATURE_MODES is not defined" := rfl

/-! ## Claim C5

The common header checks are claimed to accept any `messageId` of at most 128
characters in the class `[a-zA-Z0-9-]`. The source rejects length 128: line 570 tests
`header.messageId.length > 127` while its own error message says "must not exceed 128
characters". -/

/-- A messageId of exactly 128 characters `a`: within the claimed bound and matching
the character class. -/
def c5_messageId : String :=
  String.mk (List.replicate 128 'a')

/-- The C5 response: `TurnOnConfirmation` with `payloadVersion "2"` and the 128
character `messageId` above. -/
def c5_response : JsVal :=
  mkEnvelope (mkHeader "Alexa.ConnectedHome.Control" "TurnOnConfirmation" c5_messageId) (.obj [])

/-- C5: contrary to the claim, a header whose `payloadVersion` is `"2"` and whose
`messageId` is a 128-character string of the allowed class is REJECTED: the source
tests `length > 127`, contradicting its own error text "must not exceed 128
characters". -/
theorem c5_messageId_of_length_128_is_rejected :
    validateResponse (sampleControlRequest "TurnOnRequest") c5_response =
      Except.error
        (generateErrorMessage "TurnOnConfirmation"
          "header.messageId must not exceed 128 characters"
          (mkHeader "Alexa.ConnectedHome.Control" "TurnOnConfirmation" c5_messageId)) := rfl

/-! ## Claim C6

A system (health check) response with a non-empty `description` and a boolean
`isHealthy` is claimed to pass. The source's `isHealthy` test,
`!payload.isHealthy instanceof boolean`, evaluates the undefined identifier `boolean`
(the JS constructor is `Boolean`), so every execution that passes the description
check raises a ReferenceError. -/

/-- The C6 payload: non-empty `description` string and boolean `isHealthy`, the shape
the claim says must pass. -/
def c6_payload : JsVal :=
  .obj [("description", .str "The system is currently healthy"), ("isHealthy", .bool true)]

/-- The C6 response: `HealthCheckResponse` with a valid header and the payload above. -/
def c6_response : JsVal :=
  mkEnvelope (mkHeader "Alexa.ConnectedHome.System" "HealthCheckResponse" "abc-1") c6_payload

/-- C6: contrary to the claim, a health-check response with a non-empty `description`
and a boolean `isHealthy` does NOT pass validation: the type test for `isHealthy`
references the undefined identifier `boolean` and raises a ReferenceError. -/
theorem c6_valid_health_check_response_is_rejected :
    validateResponse (mkRequest "Alexa.ConnectedHome.System" "HealthCheckRequest") c6_response =
      Except.error "ReferenceError: boolean is not defined" := rfl

/-! ## Claim C7

A `TargetFirmwareOutdatedError` response is claimed to fail when
`minimumFirmwareVersion`/`currentFirmwareVersion` are missing, empty or
non-alphanumeric. The guard at source line 447 uses the JS `in` operator on an array
literal, which tests the array's property keys `"0"`, `"1"`, `"length"` rather than
membership, so the firmware checks never run and such responses pass. -/

/-- The C7 payload: non-empty, but with neither `minimumFirmwareVersion` nor
`currentFirmwareVersion`. -/
def c7_payload : JsVal :=
  .obj [("someKey", .num 1)]

/-- The C7 response: `TargetFirmwareOutdatedError` with a valid header and the
firmware-field-free payload above. -/
def c7_response : JsVal :=
  mkEnvelope (mkHeader "Alexa.ConnectedHome.Control" "TargetFirmwareOutdatedError" "abc-1")
    c7_payload

/-- C7: contrary to the claim, a `TargetFirmwareOutdatedError` response whose payload
is missing both firmware version fields PASSES validation: the block guarding those
checks tests `response_name in [...]` with the JS `in` operator, which is false for
every response name, leaving the block dead. -/
theorem c7_firmware_fields_are_never_checked :
    validateResponse (sampleControlRequest "TurnOnRequest") c7_response = Except.ok () := rfl

/-! ## Claim C8

A `RateLimitExceededError` response with positive numeric `rateLimit` and a `timeUnit`
in `\x7bMINUTE, HOUR, DAY\x7d` is claimed to pass. The vocabulary test at source line
484 checks `payload.rateLimit` — not `payload.timeUnit` — against the time units, and
`isInArray` treats every number as empty, so every numeric `rateLimit` makes the check
throw "payload.timeUnit is invalid". -/

/-- The C8 payload: positive numeric `rateLimit` and a `timeUnit` from the documented
vocabulary, the shape the claim says must pass. -/
def c8_payload : JsVal :=
  .obj [("rateLimit", .num 5), ("timeUnit", .str "MINUTE")]

/-- The C8 response: `RateLimitExceededError` with a valid header and the payload
above. -/
def c8_response : JsVal :=
  mkEnvelope (mkHeader "Alexa.ConnectedHome.Control" "RateLimitExceededError" "abc-1") c8_payload

/-- C8: contrary to the claim, a `RateLimitExceededError` response with `rateLimit: 5`
and `timeUnit: "MINUTE"` is REJECTED: the source checks `payload.rateLimit` against
the time-unit vocabulary, and a number never belongs to it. -/
theorem c8_valid_rate_limit_error_is_rejected :
    validateResponse (sampleControlRequest "TurnOnRequest") c8_response =
      Except.error
        (generateErrorMessage "RateLimitExceededError" "payload.timeUnit is invalid"
          c8_payload) := rfl

/-! ## Shared evaluation lemmas -/

/-- Sequencing with a trailing no-op is the first check alone. -/
lemma andThen_ok_right (x : Except String Unit) : andThen x (Except.ok ()) = x := by
  cases x with
  | error e => rfl
  | ok u => cases u; rfl

/-- A loop whose body succeeds on every element succeeds. -/
lemma forEachV_ok (f : JsVal → Except String Unit) :
    ∀ xs : List JsVal, (∀ a ∈ xs, f a = Except.ok ()) → forEachV xs f = Except.ok ()
  | [], _ => rfl
  | a :: as, h => by
      have ha : f a = Except.ok () := h a (List.mem_cons_self a as)
      have hrest := forEachV_ok f as fun b hb => h b (List.mem_cons_of_mem a hb)
      simp [forEachV, ha, hrest]

/-- `isEmpty` on a string tests emptiness of the string. -/
lemma isEmpty_str (s : String) : isEmpty (JsVal.str s) = (s == "") := by
  obtain ⟨data⟩ := s
  cases data with
  | nil => rfl
  | cons c cs =>
      have h1 : (0 : Int) < ((String.mk (c :: cs)).length : Int) := by
        have : 0 < (String.mk (c :: cs)).length := by
          simp [String.length]
        exact_mod_cast this
      have h2 : (String.mk (c :: cs) == "") = false := by
        apply beq_eq_false_iff_ne.mpr
        intro h
        have := congrArg String.data h
        simp at this
      simp [isEmpty, getProp, h1, h2]

/-- `isInStrArray` on a string candidate reduces to list membership guarded by the
two emptiness tests of the source's `isInArray`. -/
lemma isInStrArray_str (lst : List String) (s : String) :
    isInStrArray lst (JsVal.str s) = (!lst.isEmpty && (!(s == "") && lst.contains s)) := by
  unfold isInStrArray
  rw [isEmpty_str]
  cases h1 : lst.isEmpty <;> cases h2 : (s == "") <;> simp [h1, h2]

/-- A well-formed header envelope is never `isEmpty`. -/
lemma isEmpty_mkHeader (ns nm mid : String) : isEmpty (mkHeader ns nm mid) = false := rfl

/-- All four required header keys are present on a well-formed header envelope. -/
lemma requiredHeaderKeysCheck_mkHeader (ns nm mid : String) :
    requiredHeaderKeysCheck (mkHeader ns nm mid) = Except.ok () := rfl

/-- The common header constraints hold for any header with version "2" and the
messageId "abc-1". -/
lemma commonHeaderCheck_mkHeader (ns nm : String) :
    commonHeaderCheck (mkHeader ns nm "abc-1") = Except.ok () := rfl

/-- Reading `namespace` from a well-formed header envelope. -/
lemma getProp_mkHeader_namespace (ns nm mid : String) :
    getProp (mkHeader ns nm mid) "namespace" = JsVal.str ns := rfl

/-- Reading `name` from a well-formed header envelope. -/
lemma getProp_mkHeader_name (ns nm mid : String) :
    getProp (mkHeader ns nm mid) "name" = JsVal.str nm := rfl

/-- String coercion is the identity on strings. -/
lemma jsToString_str (s : String) : jsToString (JsVal.str s) = s := rfl

/-! ## Claim C9

Claim: every non-empty response object missing the top-level key `header` or the
top-level key `payload` is rejected with an error naming the missing key
(source lines 193-204). The request-side checks run first, so the claim is stated for
a request that passes them (here the concrete, valid `TurnOnRequest`). -/

/-- C9: for every non-empty response object, if the `header` key is absent the
validator throws "header is missing", and if `header` is present but `payload` is
absent it throws "payload is missing". -/
theorem c9_missing_top_level_keys (fields : List (String × JsVal))
    (hne : isEmpty (JsVal.obj fields) = false) :
    (fields.any (fun p => p.1 == "header") = false →
      validateResponse (sampleControlRequest "TurnOnRequest") (JsVal.obj fields) =
        Except.error (generateErrorMessage "Response" "header is missing" (JsVal.obj fields)))
    ∧ (fields.any (fun p => p.1 == "header") = true →
      fields.any (fun p => p.1 == "payload") = false →
      validateResponse (sampleControlRequest "TurnOnRequest") (JsVal.obj fields) =
        Except.error (generateErrorMessage "Response" "payload is missing" (JsVal.obj fields))) := by
  have e1 : isEmpty (sampleControlRequest "TurnOnRequest") = false := rfl
  have e2 : isNullish (getProp (sampleControlRequest "TurnOnRequest") "header") = false := rfl
  constructor
  · intro h1
    simp [validateResponse, requiredResponseKeysCheck, REQUIRED_RESPONSE_KEYS, forEachE, jsIn,
      e1, e2, hne, h1]
  · intro h1 h2
    simp [validateResponse, requiredResponseKeysCheck, REQUIRED_RESPONSE_KEYS, forEachE, jsIn,
      e1, e2, hne, h1, h2]

/-- Witness for C9: the non-empty response `\x7bx: 1\x7d` lacks `header` and is
rejected with a message naming it. -/
theorem c9_missing_top_level_keys_witness :
    validateResponse (sampleControlRequest "TurnOnRequest") (JsVal.obj [("x", JsVal.num 1)]) =
      Except.error
        (generateErrorMessage "Response" "header is missing" (JsVal.obj [("x", JsVal.num 1)])) :=
  (c9_missing_top_level_keys [("x", JsVal.num 1)] rfl).1 rfl

/-! ## Claim C10

Claim: for a control response whose name is outside
`VALID_NON_EMPTY_PAYLOAD_RESPONSE_NAMES` and whose header is valid, a `null` payload
and an absent payload are both rejected with a "payload is missing" error, while a
present-but-empty object payload is accepted (source lines 364-383 together with the
top-level key check of lines 200-204). The originating request is the valid
`TurnOnRequest` (a non-temperature control request). -/

/-- C10: for every response name that passes control header validation for
`TurnOnRequest` (its own confirmation or any control error name) and that is outside
the non-empty-payload set: a `null` payload and an absent payload key are each
rejected with a "payload is missing" error, while an empty object payload passes. -/
theorem c10_empty_payload_required_but_must_be_present (name : String)
    (hname : name = "TurnOnConfirmation" ∨ name ∈ VALID_CONTROL_ERROR_RESPONSE_NAMES)
    (hout : name ∉ VALID_NON_EMPTY_PAYLOAD_RESPONSE_NAMES) :
    (validateResponse (sampleControlRequest "TurnOnRequest")
        (mkEnvelope (mkHeader "Alexa.ConnectedHome.Control" name "abc-1") JsVal.null) =
      Except.error (generateErrorMessage name "payload is missing" JsVal.null))
    ∧ (validateResponse (sampleControlRequest "TurnOnRequest")
        (JsVal.obj [("header", mkHeader "Alexa.ConnectedHome.Control" name "abc-1")]) =
      Except.error
        (generateErrorMessage "Response" "payload is missing"
          (JsVal.obj [("header", mkHeader "Alexa.ConnectedHome.Control" name "abc-1")])))
    ∧ (validateResponse (sampleControlRequest "TurnOnRequest")
        (mkEnvelope (mkHeader "Alexa.ConnectedHome.Control" name "abc-1") (JsVal.obj [])) =
      Except.ok ()) := by
  rcases hname with rfl | h
  · exact ⟨rfl, rfl, rfl⟩
  · simp only [VALID_CONTROL_ERROR_RESPONSE_NAMES] at h
    fin_cases h <;>
      first
        | exact absurd (by decide) hout
        | exact ⟨rfl, rfl, rfl⟩

/-- Witness for C10 at `TurnOnConfirmation`: the empty object payload passes while the
`null` payload is rejected as missing. -/
theorem c10_empty_payload_witness :
    (validateResponse (sampleControlRequest "TurnOnRequest")
        (mkEnvelope (mkHeader "Alexa.ConnectedHome.Control" "TurnOnConfirmation" "abc-1")
          (JsVal.obj [])) = Except.ok ())
    ∧ (validateResponse (sampleControlRequest "TurnOnRequest")
        (mkEnvelope (mkHeader "Alexa.ConnectedHome.Control" "TurnOnConfirmation" "abc-1")
          JsVal.null) =
      Except.error (generateErrorMessage "TurnOnConfirmation" "payload is missing" JsVal.null)) :=
  ⟨(c10_empty_payload_required_but_must_be_present "TurnOnConfirmation" (Or.inl rfl)
      (by decide)).2.2,
   (c10_empty_payload_required_but_must_be_present "TurnOnConfirmation" (Or.inl rfl)
      (by decide)).1⟩

/-! ## Claim C4

Claim: a discovery response fails when `payload.discoveredAppliances` is absent, not a
sequence, or longer than 300; it passes for every length in [0, 300] when each
appliance satisfies the per-appliance constraints, and in particular an empty
appliance sequence passes (source lines 264-280). -/

/-- A valid discovery request. -/
def discoveryRequest : JsVal :=
  mkRequest "Alexa.ConnectedHome.Discovery" "DiscoverAppliancesRequest"

/-- A discovery response with a valid header and the given payload. -/
def discoveryResponse (payload : JsVal) : JsVal :=
  mkEnvelope (mkHeader "Alexa.ConnectedHome.Discovery" "DiscoverAppliancesResponse" "abc-1") payload

/-- A discovery response carrying the given appliance list. -/
def discoveryApplianceResponse (apps : List JsVal) : JsVal :=
  discoveryResponse (.obj [("discoveredAppliances", .arr apps)])

/-- Partial evaluation of the validator on a discovery response with an appliance
array: everything up to the length bound is definitional. -/
lemma validateResponse_discovery_eval (apps : List JsVal) :
    validateResponse discoveryRequest (discoveryApplianceResponse apps) =
      if MAX_DISCOVERED_APPLIANCES < apps.length then
        Except.error
          (generateErrorMessage "DiscoverAppliancesResponse"
            "payload.discoveredAppliances must not contain more than 300 appliances"
            (.obj [("discoveredAppliances", .arr apps)]))
      else forEachV apps (validateAppliance (JsVal.str "DiscoverAppliancesResponse")) := rfl

/-- Partial evaluation of the validator on a discovery response with an arbitrary
payload: the header and top-level checks pass definitionally. -/
lemma validateResponse_discovery_payload_eval (p : JsVal) :
    validateResponse discoveryRequest (discoveryResponse p) =
      discoveryPayloadCheck (discoveryResponse p) := rfl

/-- Reading the payload back from a discovery response. -/
lemma getProp_discoveryResponse_payload (p : JsVal) :
    getProp (discoveryResponse p) "payload" = p := rfl

/-- The response name of a discovery response. -/
lemma discoveryResponse_name (p : JsVal) :
    jsToString (getProp (getProp (discoveryResponse p) "header") "name") =
      "DiscoverAppliancesResponse" := rfl

/-- C4: with at most 300 appliances that each satisfy the per-appliance checks the
discovery response passes (so in particular for the empty sequence); more than 300
appliances fail; a payload without the `discoveredAppliances` key fails; and a
non-array `discoveredAppliances` fails. -/
theorem c4_discovered_appliances_bounds (apps : List JsVal)
    (hlen : apps.length ≤ 300)
    (hvalid : ∀ a ∈ apps, validateAppliance (JsVal.str "DiscoverAppliancesResponse") a =
      Except.ok ()) :
    (validateResponse discoveryRequest (discoveryApplianceResponse apps) = Except.ok ())
    ∧ (∀ big : List JsVal, 300 < big.length →
        validateResponse discoveryRequest (discoveryApplianceResponse big) =
          Except.error
            (generateErrorMessage "DiscoverAppliancesResponse"
              "payload.discoveredAppliances must not contain more than 300 appliances"
              (.obj [("discoveredAppliances", .arr big)])))
    ∧ (∀ fields : List (String × JsVal),
        fields.any (fun p => p.1 == "discoveredAppliances") = false →
        validateResponse discoveryRequest (discoveryResponse (.obj fields)) ≠ Except.ok ())
    ∧ (∀ v : JsVal, (∀ xs : List JsVal, v ≠ .arr xs) →
        validateResponse discoveryRequest
            (discoveryResponse (.obj [("discoveredAppliances", v)])) =
          Except.error
            (generateErrorMessage "DiscoverAppliancesResponse"
              "payload.discoveredAppliances must be a list, can be empty"
              (.obj [("discoveredAppliances", v)]))) := by
  refine ⟨?_, ?_, ?_, ?_⟩
  · rw [validateResponse_discovery_eval, if_neg (by simp [MAX_DISCOVERED_APPLIANCES]; omega)]
    exact forEachV_ok _ apps hvalid
  · intro big hbig
    rw [validateResponse_discovery_eval,
      if_pos (by simpa [MAX_DISCOVERED_APPLIANCES] using hbig)]
  · intro fields hmiss
    rw [validateResponse_discovery_payload_eval]
    simp only [discoveryPayloadCheck, getProp_discoveryResponse_payload, discoveryResponse_name]
    cases hE : isEmpty (JsVal.obj fields) with
    | true => simp [hE]
    | false => simp [hE, jsIn, hmiss]
  · intro v hv
    rw [validateResponse_discovery_payload_eval]
    simp only [discoveryPayloadCheck, getProp_discoveryResponse_payload, discoveryResponse_name]
    have hE : isEmpty (JsVal.obj [("discoveredAppliances", v)]) = false := rfl
    have hin : jsIn "discoveredAppliances" (JsVal.obj [("discoveredAppliances", v)]) =
        some true := rfl
    have hgp : getProp (JsVal.obj [("discoveredAppliances", v)]) "discoveredAppliances" = v := rfl
    rw [hE]
    simp only [Bool.false_eq_true, if_false, hin]
    cases v with
    | arr xs => exact absurd rfl (hv xs)
    | null => rfl
    | undefined => rfl
    | bool b => rfl
    | num n => rfl
    | str s => rfl
    | obj fs => rfl

/-- Witness for C4: the empty appliance sequence satisfies the hypotheses and the
response passes. -/
theorem c4_discovered_appliances_bounds_witness :
    ([] : List JsVal).length ≤ 300
    ∧ validateResponse discoveryRequest (discoveryApplianceResponse []) = Except.ok () :=
  ⟨by decide,
   (c4_discovered_appliances_bounds [] (by decide) (fun a ha => absurd ha (by simp))).1⟩

/-! ## Claim C1

Claim: for every control request name `X`Request and a response header that carries the
control namespace, version "2" and a valid messageId, the header-name check accepts
exactly the control error names and the single name obtained from the request name by
replacing `Request` with `Confirmation` (source lines 545-558). -/

/-- The facts about a control request name needed to evaluate the header checks:
membership in the request-name tables, non-emptiness, and that its derived
confirmation is one of the control response names. -/
lemma control_request_facts (X : String) (hX : X ∈ VALID_CONTROL_REQUEST_NAMES) :
    X ∈ VALID_REQUEST_NAMES
    ∧ X ∉ VALID_DISCOVERY_REQUEST_NAMES
    ∧ X ≠ ""
    ∧ jsReplaceFirst X "Request" "Confirmation" ∈ VALID_CONTROL_RESPONSE_NAMES
    ∧ jsReplaceFirst X "Request" "Confirmation" ≠ "" := by
  fin_cases hX <;> refine ⟨by decide, by decide, by decide, by decide, by decide⟩

/-- Bridge between the boolean `contains` used by the embedding and list
membership. -/
lemma contains_eq_true_iff_mem (l : List String) (s : String) :
    l.contains s = true ↔ s ∈ l := by
  simp [List.contains, List.elem_eq_mem]

/-- C1: under the control-request facts, the full header validator accepts a response
name iff it is a control error name or the derived confirmation name. -/
theorem c1_control_header_name_pairing (X name : String)
    (hX : X ∈ VALID_CONTROL_REQUEST_NAMES) :
    validateResponseHeader (sampleControlRequest X) (sampleControlResponse name) =
        Except.ok ()
    ↔ (name ∈ VALID_CONTROL_ERROR_RESPONSE_NAMES ∨
        name = jsReplaceFirst X "Request" "Confirmation") := by
  obtain ⟨f1, f2, f4, f5, f6⟩ := control_request_facts X hX
  have e1 : getProp (getProp (sampleControlRequest X) "header") "name" = JsVal.str X := rfl
  have e2 : getProp (sampleControlResponse name) "header" =
      mkHeader "Alexa.ConnectedHome.Control" name "abc-1" := rfl
  have heval : validateResponseHeader (sampleControlRequest X) (sampleControlResponse name) =
      controlHeaderNameCheck (JsVal.str X)
        (mkHeader "Alexa.ConnectedHome.Control" name "abc-1") := by
    simp [validateResponseHeader, e1, e2, isInStrArray_str, f1, f2, f4,
      isEmpty_mkHeader, requiredHeaderKeysCheck_mkHeader, commonHeaderCheck_mkHeader,
      discoveryHeaderNameCheck, andThen_ok_right,
      (by decide : ¬(VALID_REQUEST_NAMES = [])),
      (by decide : ¬(VALID_DISCOVERY_REQUEST_NAMES = []))]
  rw [heval]
  by_cases hn : name = ""
  · subst hn
    have h0 : ¬("" = jsReplaceFirst X "Request" "Confirmation") := fun h => f6 h.symm
    simp [controlHeaderNameCheck, getProp_mkHeader_namespace, getProp_mkHeader_name,
      jsStrictEqStr, jsToString_str, isInStrArray_str, hX, f4, h0,
      (by decide : ("" : String) ∉ VALID_CONTROL_ERROR_RESPONSE_NAMES),
      (by decide : ¬(VALID_CONTROL_REQUEST_NAMES = []))]
  · by_cases he : name ∈ VALID_CONTROL_ERROR_RESPONSE_NAMES
    · simp [controlHeaderNameCheck, getProp_mkHeader_namespace, getProp_mkHeader_name,
        jsStrictEqStr, jsToString_str, isInStrArray_str, hX, f4, hn, he,
        (by decide : ¬(VALID_CONTROL_REQUEST_NAMES = [])),
        (by decide : ¬(VALID_CONTROL_RESPONSE_NAMES = [])),
        (by decide : ¬(VALID_CONTROL_ERROR_RESPONSE_NAMES = []))]
    · by_cases hc : name = jsReplaceFirst X "Request" "Confirmation"
      · subst hc
        simp [controlHeaderNameCheck, getProp_mkHeader_namespace, getProp_mkHeader_name,
          jsStrictEqStr, jsToString_str, isInStrArray_str, hX, f4, hn, he, f5,
          (by decide : ¬(VALID_CONTROL_REQUEST_NAMES = [])),
          (by decide : ¬(VALID_CONTROL_RESPONSE_NAMES = [])),
          (by decide : ¬(VALID_CONTROL_ERROR_RESPONSE_NAMES = []))]
      · by_cases hu : name ∈ VALID_CONTROL_RESPONSE_NAMES
        · simp [controlHeaderNameCheck, getProp_mkHeader_namespace, getProp_mkHeader_name,
            jsStrictEqStr, jsToString_str, isInStrArray_str, hX, f4, hn, he, hc, hu,
            (by decide : ¬(VALID_CONTROL_REQUEST_NAMES = [])),
            (by decide : ¬(VALID_CONTROL_RESPONSE_NAMES = [])),
            (by decide : ¬(VALID_CONTROL_ERROR_RESPONSE_NAMES = []))]
        · simp [controlHeaderNameCheck, getProp_mkHeader_namespace, getProp_mkHeader_name,
            jsStrictEqStr, jsToString_str, isInStrArray_str, hX, f4, hn, he, hc, hu,
            (by decide : ¬(VALID_CONTROL_REQUEST_NAMES = [])),
            (by decide : ¬(VALID_CONTROL_RESPONSE_NAMES = [])),
            (by decide : ¬(VALID_CONTROL_ERROR_RESPONSE_NAMES = []))]

/-- Witness for C1: for `TurnOnRequest`, the mismatched confirmation
`TurnOffConfirmation` is neither an error name nor the derived confirmation, so the
equivalence makes header validation reject it. -/
theorem c1_control_header_name_pairing_witness :
    "TurnOnRequest" ∈ VALID_CONTROL_REQUEST_NAMES
    ∧ (validateResponseHeader (sampleControlRequest "TurnOnRequest")
          (sampleControlResponse "TurnOffConfirmation") = Except.ok ()
        ↔ ("TurnOffConfirmation" ∈ VALID_CONTROL_ERROR_RESPONSE_NAMES ∨
            "TurnOffConfirmation" = jsReplaceFirst "TurnOnRequest" "Request" "Confirmation")) :=
  ⟨by decide, c1_control_header_name_pairing "TurnOnRequest" "TurnOffConfirmation" (by decide)⟩

end AlexaValidation
